import Mathlib

/-!
# go-nowpayments: configuration store, recurring payments, payments

A shallow embedding of `config/config.go` and
`recurring_payments/recurring_payment.go`, and of the dispatcher of package
`core` and the operations of `payments/payment.go` as the specification and
`payments/payment_test.go` describe them.

Conventions of the embedding.

* A Go `error` is represented by its message: `none` is the nil error and
  `some m` an error whose `Error()` text is `m`.
* A Go pointer to a `Credentials` struct is an address into an explicit heap,
  so that `conf = c` (sharing) and `conf.X = c.X` (copying) stay distinct.
* A nil-pointer dereference or an index out of range is a run-time panic; it
  shows up as `none` for the getters and as `Outcome.panic` for operations.
-/

/-- The message of `eris.Wrap(err, msg)`: the context, a colon and a blank, then
the message of the wrapped error (`"payment-create: network error"`). -/
def erisWrap (err msg : String) : String :=
  msg ++ ": " ++ err

namespace config

/-- The struct `Credentials` of `config.go`. -/
structure Credentials where
  APIKey : String
  IPNSecretKey : String
  Login : String
  Password : String
  Server : String
deriving DecidableEq, Repr

/-- An address of a `Credentials` object. -/
abbrev Ptr := Nat

/-- The memory the package works on: the `Credentials` objects behind the
pointers, and the package variable `conf` (`none` is the nil pointer). -/
structure State where
  heap : Ptr → Credentials
  conf : Option Ptr

/-- The function `configErr`: `eris.Wrap(err, "config")`. -/
def configErr (err : String) : String :=
  erisWrap err "config"

/-- The assignments `conf.APIKey = c.APIKey` to `conf.Password = c.Password` of
`Load`, in source order, for `conf` at address `q` and `c` at address `p`. Each
assignment reads `c` from the heap as the previous one left it. -/
def copyFields (heap : Ptr → Credentials) (q p : Ptr) : Ptr → Credentials :=
  let h1 := Function.update heap q { heap q with APIKey := (heap p).APIKey }
  let h2 := Function.update h1 q { h1 q with Server := (h1 p).Server }
  let h3 := Function.update h2 q { h2 q with IPNSecretKey := (h2 p).IPNSecretKey }
  let h4 := Function.update h3 q { h3 q with Login := (h3 p).Login }
  Function.update h4 q { h4 q with Password := (h4 p).Password }

/-- The sanity checks of `Load` on the stored object; `urlParse s` tells whether
`url.Parse(s)` of the Go standard library succeeds. -/
def sanityChecks (urlParse : String → Bool) (cur : Credentials) : Option String :=
  if cur.APIKey = "" then some (configErr "API key is missing")
  else if cur.IPNSecretKey = "" then some (configErr "IPN secret key is missing")
  else if cur.Server = "" then some (configErr "server URL missing")
  else if urlParse cur.Server = false then some (configErr "server URL parsing")
  else none

/-- The function `Load`: the state it leaves and the error it returns. -/
def Load (urlParse : String → Bool) (c : Option Ptr) (st : State) : State × Option String :=
  match c with
  | none => (st, some (configErr "nil reader"))
  | some p =>
    match st.conf with
    | none =>
      let st1 : State := { st with conf := some p }
      (st1, sanityChecks urlParse (st1.heap p))
    | some q =>
      let st1 : State := { st with heap := copyFields st.heap q p }
      (st1, sanityChecks urlParse (st1.heap q))

/-- The object `conf` points to; `none` when `conf` is nil. -/
def stored (st : State) : Option Credentials :=
  st.conf.map st.heap

/-- The getter `Login`; `none` is the panic of dereferencing a nil `conf`. -/
def Login (st : State) : Option String :=
  (stored st).map (·.Login)

/-- The getter `Password`. -/
def Password (st : State) : Option String :=
  (stored st).map (·.Password)

/-- The getter `APIKey`. -/
def APIKey (st : State) : Option String :=
  (stored st).map (·.APIKey)

/-- The getter `IPNSecretKey`. -/
def IPNSecretKey (st : State) : Option String :=
  (stored st).map (·.IPNSecretKey)

/-- The getter `Server`. -/
def Server (st : State) : Option String :=
  (stored st).map (·.Server)

/-- The five getters all answer with the fields of `c`. -/
def Holds (st : State) (c : Credentials) : Prop :=
  Login st = some c.Login ∧ Password st = some c.Password ∧ APIKey st = some c.APIKey ∧
    IPNSecretKey st = some c.IPNSecretKey ∧ Server st = some c.Server

/-- The error `Load` has left for a non-empty server field once the other checks
are passed: nil, or the parse error of the URL. -/
def serverVerdict (urlParse : String → Bool) (server : String) : Option String :=
  if urlParse server = false then some "config: server URL parsing" else none

/-- The credentials `validCfg` of `config_test.go`. -/
def validCfg : Credentials :=
  { Server := "http://some.tld", Login := "mylogin", Password := "mypass",
    APIKey := "key", IPNSecretKey := "key" }

/-- The credentials `emptyLoginCfg` of `TestLoad`. -/
def emptyLoginCfg : Credentials :=
  { Server := "http://some.tld", APIKey := "key", Password := "mypass",
    IPNSecretKey := "key", Login := "" }

/-- The credentials `emptyPasswordCfg` of `TestLoad`. -/
def emptyPasswordCfg : Credentials :=
  { Server := "http://some.tld", APIKey := "key", Login := "mylogin",
    IPNSecretKey := "key", Password := "" }

/-- The credentials `emptyAPIKeyCfg` of `TestLoad`. -/
def emptyAPIKeyCfg : Credentials :=
  { Server := "http://some.tld", Login := "mylogin", Password := "mypass",
    IPNSecretKey := "key", APIKey := "" }

/-- A memory with `validCfg` at address 0, `emptyLoginCfg` at address 1,
`emptyPasswordCfg` at address 2 and `emptyAPIKeyCfg` elsewhere, and nothing
loaded yet. -/
def testMemory : State :=
  { heap := fun a =>
      if a = 0 then validCfg else if a = 1 then emptyLoginCfg
      else if a = 2 then emptyPasswordCfg else emptyAPIKeyCfg,
    conf := none }

end config

/-! ## The pieces of package `core` the operations are written against -/

namespace core

/-- Modelled from the spec: the struct `core.SendParams` is declared in package
`core`, whose source is not at hand; these are the fields `recurring_payment.go` sets (route name,
path suffix, bearer token, request body). An unset field has Go's zero value:
the empty string, and `none` for the nil body reader. The field `Into`, the
destination of the decoding, is the value `HTTPSend` hands back. -/
structure SendParams where
  RouteName : String
  Path : String
  JWTToken : String
  Body : Option String
deriving DecidableEq, Repr

/-- Modelled from the spec: the envelope `core.V2ResponseFormat[T]` is declared
in package `core`, whose source is not at hand; `recurring_payment.go` reads its field `Result`. -/
structure V2ResponseFormat (T : Type) where
  Result : T
deriving DecidableEq, Repr

/-- A call into package `core`, as seen from an operation. -/
inductive Call where
  | Authenticate (login password : String)
  | HTTPSend (par : SendParams)
deriving DecidableEq, Repr

/-- What a Go function of type `(*T, error)` does: it panics, or it returns a
pointer (`none` is nil) and an error (`none` is nil). -/
inductive Outcome (T : Type) where
  | panic
  | ret (result : Option T) (err : Option String)
deriving DecidableEq, Repr

/-- The behaviour of `core.Authenticate` and `core.HTTPSend` towards one
operation decoding into a `*V2ResponseFormat[T]`. `Authenticate` yields a token
or an error. `HTTPSend` yields an error, or nil together with the value it left
in the destination variable, a pointer it received the address of (`Into: &rp`)
and may therefore have reset to nil. -/
structure Handlers (T : Type) where
  Authenticate : String → String → Except String String
  HTTPSend : SendParams → Except String (Option (V2ResponseFormat T))

end core

namespace recurring_payments

open core

/-- The struct `RecurringPaymentArgs`; both fields are `int64`. -/
structure RecurringPaymentArgs where
  SubscriptionPlanID : Int
  SubPartnerID : Int
deriving DecidableEq, Repr

/-- The struct `Subscriber`. -/
structure Subscriber where
  Email : String
  SubPartnerID : String
deriving DecidableEq, Repr

/-- The struct `RecurringPayment`; a `time.Time` is kept as its RFC 3339 text. -/
structure RecurringPayment where
  ID : String
  SubscriptionPlanID : String
  IsActive : Bool
  Status : String
  ExpireDate : String
  Subscriber : Subscriber
  CreatedAt : String
  UpdatedAt : String
deriving DecidableEq, Repr

/-- The call `json.Marshal(ru)`: the JSON object of the two tagged fields, in
declaration order, each an integer in decimal. No error arises for this type. -/
def jsonMarshal (ru : RecurringPaymentArgs) : Except String String :=
  .ok ("\x7b\"subscription_plan_id\":" ++ toString ru.SubscriptionPlanID ++
    ",\"sub_partner_id\":" ++ toString ru.SubPartnerID ++ "\x7d")

/-- The function `New`: the calls it makes into `core`, in order, and what it
returns. -/
def New (cfg : config.State) (w : Handlers (List (Option RecurringPayment)))
    (ru : Option RecurringPaymentArgs) : List Call × Outcome RecurringPayment :=
  match ru with
  | none => ([], .ret none (some "nil recurring payment args"))
  | some ru =>
    match jsonMarshal ru with
    | .error err => ([], .ret none (some (erisWrap err "recurring payment args")))
    | .ok d =>
      match config.Login cfg, config.Password cfg with
      | some login, some password =>
        match w.Authenticate login password with
        | .error err =>
          ([.Authenticate login password], .ret none (some (erisWrap err "recurring payment")))
        | .ok tok =>
          let par : SendParams :=
            { RouteName := "recurring-payment-create", Path := "", JWTToken := tok, Body := some d }
          match w.HTTPSend par with
          | .error err => ([.Authenticate login password, .HTTPSend par], .ret none (some err))
          | .ok none => ([.Authenticate login password, .HTTPSend par], .panic)
          | .ok (some rcu) =>
            match rcu.Result with
            | [] => ([.Authenticate login password, .HTTPSend par], .panic)
            | first :: _ => ([.Authenticate login password, .HTTPSend par], .ret first none)
      | _, _ => ([], .panic)

/-- The function `Get`. -/
def Get (w : Handlers (Option RecurringPayment)) (recurringPaymentID : String) :
    List Call × Outcome RecurringPayment :=
  if recurringPaymentID = "" then ([], .ret none (some "empty recurring payment ID"))
  else
    let par : SendParams :=
      { RouteName := "recurring-payment-single", Path := recurringPaymentID, JWTToken := "",
        Body := none }
    match w.HTTPSend par with
    | .error err => ([.HTTPSend par], .ret none (some err))
    | .ok none => ([.HTTPSend par], .panic)
    | .ok (some rp) => ([.HTTPSend par], .ret rp.Result none)

/-- The function `Delete`. -/
def Delete (cfg : config.State) (w : Handlers (Option String)) (recurringPaymentID : String) :
    List Call × Outcome String :=
  if recurringPaymentID = "" then ([], .ret none (some "empty recurring payment ID"))
  else
    match config.Login cfg, config.Password cfg with
    | some login, some password =>
      match w.Authenticate login password with
      | .error err =>
        ([.Authenticate login password], .ret none (some (erisWrap err "recurring payment")))
      | .ok tok =>
        let par : SendParams :=
          { RouteName := "recurring-payment-delete", Path := recurringPaymentID, JWTToken := tok,
            Body := none }
        match w.HTTPSend par with
        | .error err => ([.Authenticate login password, .HTTPSend par], .ret none (some err))
        | .ok none => ([.Authenticate login password, .HTTPSend par], .panic)
        | .ok (some de) => ([.Authenticate login password, .HTTPSend par], .ret de.Result none)
    | _, _ => ([], .panic)

end recurring_payments

/-! ## The dispatcher and the payment operations, after the specification

Package `core` and `payments/payment.go` are not among the sources at hand; what
follows renders sections 3, 4 and 7 of the specification and what
`payments/payment_test.go` observes. -/

namespace core

/-- Modelled from the spec: a JSON document as the decoder of `core.HTTPSend`
sees it; `F` is the type of floating-point numbers, and a JSON number stands for
the float it denotes. -/
inductive Json (F : Type) where
  | null
  | bool (b : Bool)
  | num (x : F)
  | str (s : String)
  | arr (items : List (Json F))
  | obj (members : List (String × Json F))

/-- Modelled from the spec: a row of the route table of package `core`
(section 3: name, HTTP verb, path template). -/
structure Route where
  name : String
  method : String
  pathTemplate : String
deriving DecidableEq, Repr

/-- Modelled from the spec: the request the dispatcher of package `core` hands to
the transport (section 4.3: URL, method, headers, body). -/
structure Request where
  Method : String
  URL : String
  Header : List (String × String)
  Body : Option String
deriving DecidableEq, Repr

/-- Modelled from the spec: the response of the transport to the dispatcher of
package `core`: the status code and the raw body. -/
structure Response where
  StatusCode : Nat
  Body : String
deriving DecidableEq, Repr

/-- Modelled from the spec: the process-wide client state of package `core`
(section 3: transport, base URL, debug switch). The transport answers a request
with a response or with the message of a transport error. -/
structure Client where
  transport : Request → Except String Response
  baseURL : String
  debugEnabled : Bool

/-- Modelled from the spec: what the dispatcher of package `core` works with: the
client state (`none` until it is initialised), the credentials supplied by the
configuration, the route table, and the JSON reader of the standard library
(`none` for a body that is not JSON). -/
structure Context (F : Type) where
  client : Option Client
  credentials : config.Credentials
  routes : List Route
  parseJSON : String → Option (Json F)

/-- Modelled from the spec: `resolve` of section 4.1 for the route table of
package `core`: the row of that name, if any. -/
def resolve (routes : List Route) (routeName : String) : Option Route :=
  routes.find? (fun r => r.name = routeName)

/-- Modelled from the spec: the headers the dispatcher of package `core` sets
(section 4.3): the bearer token when one is supplied and the API key otherwise,
and the JSON content type when there is a body. -/
def headers (apiKey : String) (p : SendParams) : List (String × String) :=
  (if p.JWTToken = "" then [("x-api-key", apiKey)]
    else [("Authorization", "Bearer " ++ p.JWTToken)]) ++
  (match p.Body with
    | some _ => [("Content-Type", "application/json")]
    | none => [])

/-- Modelled from the spec: the envelope decoder of package `core` (sections 4.3
and 4.5): a body of the shape `{"result": payload}` is unwrapped one level,
any other body is decoded as it stands. -/
def decodeEnvelope {F D : Type} (decode : Json F → Except String D) (doc : Json F) :
    Except String D :=
  match doc with
  | .obj members =>
    match members.lookup "result" with
    | some payload => decode payload
    | none => decode doc
  | _ => decode doc

/-- Modelled from the spec: the request the dispatcher of package `core` builds
(section 4.3): the verb of the route, the base URL followed by the path of the
route and the path suffix, the headers, and the body. -/
def newRequest (client : Client) (route : Route) (apiKey : String) (p : SendParams) : Request :=
  { Method := route.method, URL := client.baseURL ++ route.pathTemplate ++ p.Path,
    Header := headers apiKey p, Body := p.Body }

/-- Modelled from the spec: `core.HTTPSend`, the dispatcher of section 4.3, for a
destination of type `D` decoded by `decode`. Every error carries the route name
in front (section 7); the spec fixes the text of the transport error only, the
other errors are spelled by the name of their kind. The debug switch changes no
result and is left out. -/
def HTTPSend {F D : Type} (ctx : Context F) (decode : Json F → Except String D)
    (p : SendParams) : Except String D :=
  match ctx.client with
  | none => .error (erisWrap "NotConfigured" p.RouteName)
  | some client =>
    match resolve ctx.routes p.RouteName with
    | none => .error (erisWrap "UnknownRoute" p.RouteName)
    | some route =>
      match client.transport (newRequest client route ctx.credentials.APIKey p) with
      | .error cause => .error (erisWrap cause p.RouteName)
      | .ok resp =>
        if 200 ≤ resp.StatusCode ∧ resp.StatusCode < 300 then
          match ctx.parseJSON resp.Body with
          | none => .error (erisWrap "DecodeError: malformed JSON" p.RouteName)
          | some doc =>
            match decodeEnvelope decode doc with
            | .error cause => .error (erisWrap ("DecodeError: " ++ cause) p.RouteName)
            | .ok d => .ok d
        else
          .error (erisWrap ("APIError: " ++ toString resp.StatusCode ++ ": " ++ resp.Body)
            p.RouteName)

/-- The dispatch of `p` fails in the transport: the client is set up, the route
of `p` is in the table, and the transport answers the request built for `p`
with a transport error of cause `m`. Other requests, the token exchange among
them, may be answered. -/
def Context.DispatchFails {F : Type} (ctx : Context F) (p : SendParams) (m : String) : Prop :=
  ∃ client route, ctx.client = some client ∧ resolve ctx.routes p.RouteName = some route ∧
    client.transport (newRequest client route ctx.credentials.APIKey p) = .error m

/-- The message `msg` starts with the text `start`. -/
def BeginsWith (msg start : String) : Prop :=
  start.data <+: msg.data

/-- The message `msg` has the text `part` somewhere inside. -/
def Contains (msg part : String) : Prop :=
  part.data <:+: msg.data

/-- An error whose message starts with the route name, a colon and a blank, and
contains the cause. -/
def TaggedWith (route cause : String) (err : Option String) : Prop :=
  ∃ msg, err = some msg ∧ BeginsWith msg (route ++ ": ") ∧ Contains msg cause

/-- The error an outcome returns; `none` also for a panic. -/
def Outcome.err {T : Type} : Outcome T → Option String
  | .panic => none
  | .ret _ err => err

/-- The outcome is neither a populated result with a nil error nor a nil result
with a non-nil error. -/
def Outcome.AllOrNothing {T : Type} (o : Outcome T) : Prop :=
  (∃ r, o = .ret (some r) none) ∨ (∃ e, o = .ret none (some e))

end core

namespace payments

open core

/-- Modelled from the spec: the flexible numeric field of section 4.4, the
`pay_amount` of a payment. `field` is the member of the JSON object, `none`
when it is absent; `parseFloat` reads a number out of a string, as
`strconv.ParseFloat` does, and gives `none` for a string that is not a number. -/
def FlexibleAmount.decode {F : Type} [Zero F] (parseFloat : String → Option F) :
    Option (Json F) → Except String F
  | none => .ok 0
  | some .null => .ok 0
  | some (.num x) => .ok x
  | some (.str s) =>
    match parseFloat s with
    | some x => .ok x
    | none => .error "pay_amount: not a number"
  | some _ => .error "pay_amount: not a number"

/-- Modelled from the spec: the result type `Payment[string]` of
`payments/payment.go`, with the two fields `payment_test.go` reads. -/
structure Payment (F : Type) where
  ID : String
  PayAmount : F
deriving DecidableEq, Repr

/-- Modelled from the spec: the decoding of a JSON object into a
`Payment[string]` of `payments/payment.go`: `payment_id` is a string (the zero
value when absent or null), `pay_amount` the flexible numeric field. -/
def decodePayment {F : Type} [Zero F] (parseFloat : String → Option F) (doc : Json F) :
    Except String (Payment F) :=
  match doc with
  | .obj members =>
    match FlexibleAmount.decode parseFloat (members.lookup "pay_amount") with
    | .error cause => .error cause
    | .ok amount =>
      match members.lookup "payment_id" with
      | none => .ok { ID := "", PayAmount := amount }
      | some .null => .ok { ID := "", PayAmount := amount }
      | some (.str id) => .ok { ID := id, PayAmount := amount }
      | some _ => .error "payment_id: not a string"
  | _ => .error "payment: not an object"

/-- Modelled from the spec: `payments.New` of `payments/payment.go` (sections 2,
7 and 8): nil arguments fail before any call; otherwise one dispatch on route
`payment-create` with the JSON encoding `encode pa` of the arguments as body,
whose error is returned as it is and whose decoded payment is the result. `A` is
the type of the arguments. -/
def New {F A : Type} [Zero F] (ctx : Context F) (parseFloat : String → Option F)
    (encode : A → String) (pa : Option A) : List Call × Outcome (Payment F) :=
  match pa with
  | none => ([], .ret none (some "nil payment args"))
  | some pa =>
    let par : SendParams :=
      { RouteName := "payment-create", Path := "", JWTToken := "", Body := some (encode pa) }
    match HTTPSend ctx (decodePayment parseFloat) par with
    | .error err => ([.HTTPSend par], .ret none (some err))
    | .ok p => ([.HTTPSend par], .ret (some p) none)

/-- Modelled from the spec: `payments.NewFromInvoice` of `payments/payment.go`:
as `New`, on route `invoice-payment`. `TestNewFromInvoice` lets the transport
see requests to `/v1/invoice-payment` only and expects the transport error under
that route name, so no token is requested. -/
def NewFromInvoice {F A : Type} [Zero F] (ctx : Context F) (parseFloat : String → Option F)
    (encode : A → String) (ipa : Option A) : List Call × Outcome (Payment F) :=
  match ipa with
  | none => ([], .ret none (some "nil payment args"))
  | some ipa =>
    let par : SendParams :=
      { RouteName := "invoice-payment", Path := "", JWTToken := "", Body := some (encode ipa) }
    match HTTPSend ctx (decodePayment parseFloat) par with
    | .error err => ([.HTTPSend par], .ret none (some err))
    | .ok p => ([.HTTPSend par], .ret (some p) none)

end payments

/-! ## Sample data -/

namespace recurring_payments

open core

/-- The configuration state once `validCfg` is loaded into a fresh process. -/
def loadedConfig : config.State :=
  (config.Load (fun _ => true) (some 0) config.testMemory).1

/-- A recurring payment as the service reports it. -/
def samplePayment : RecurringPayment :=
  { ID := "42", SubscriptionPlanID := "76215585", IsActive := true, Status := "PAID",
    ExpireDate := "2022-10-11T00:02:00.025Z",
    Subscriber := { Email := "test@example.com", SubPartnerID := "" },
    CreatedAt := "2022-10-04T16:28:55.423Z", UpdatedAt := "2022-10-04T16:28:55.423Z" }

/-- The core hands out the token `jwt` and answers every dispatch with success
and an envelope whose `Result` is nil, as for a response body without a result. -/
def nilResultHandlers (T : Type) : Handlers (Option T) :=
  { Authenticate := fun _ _ => .ok "jwt", HTTPSend := fun _ => .ok (some { Result := none }) }

/-- The core hands out the token `jwt` and fails every dispatch with a timeout. -/
def timeoutHandlers (T : Type) : Handlers T :=
  { Authenticate := fun _ _ => .ok "jwt", HTTPSend := fun _ => .error "timeout" }

/-- The authentication exchange fails on the network. -/
def offlineHandlers (T : Type) : Handlers T :=
  { Authenticate := fun _ _ => .error "network error",
    HTTPSend := fun _ => .error "network error" }

/-- The core refuses the credentials and fails every dispatch with a timeout. -/
def deniedHandlers (T : Type) : Handlers T :=
  { Authenticate := fun _ _ => .error "denied", HTTPSend := fun _ => .error "timeout" }

end recurring_payments

namespace core

/-- A route table holding the routes of the five operations; the paths of the
recurring-payment routes stand for those of the service. -/
def sampleRoutes : List Route :=
  [{ name := "payment-create", method := "POST", pathTemplate := "/v1/payment" },
   { name := "invoice-payment", method := "POST", pathTemplate := "/v1/invoice-payment" },
   { name := "recurring-payment-create", method := "POST", pathTemplate := "/v1/subscriptions" },
   { name := "recurring-payment-single", method := "GET", pathTemplate := "/v1/subscriptions/" },
   { name := "recurring-payment-delete", method := "DELETE", pathTemplate := "/v1/subscriptions/" }]

/-- A dispatcher context over the sample route table and the credentials
`validCfg`, with numbers in `ℚ`, for a given transport and JSON reader. -/
def sampleContext (transport : Request → Except String Response)
    (parseJSON : String → Option (Json ℚ)) : Context ℚ :=
  { client := some
      { transport := transport, baseURL := "https://api.nowpayments.io", debugEnabled := false },
    credentials := config.validCfg, routes := sampleRoutes, parseJSON := parseJSON }

/-- The transport of `TestNew`: every request is answered 200 with the body. -/
def okTransport (body : String) : Request → Except String Response :=
  fun _ => .ok { StatusCode := 200, Body := body }

/-- A transport that answers the token exchange and loses every other request:
a request to the path `/v1/auth` gets a token, any other one fails with
`network error`. -/
def selectiveTransport : Request → Except String Response :=
  fun req =>
    if req.URL = "https://api.nowpayments.io/v1/auth" then
      .ok { StatusCode := 200, Body := "\x7b\"token\":\"jwt\"\x7d" }
    else .error "network error"

/-- The body of a payment whose amount comes as a string. -/
def amountAsStringBody : String :=
  "\x7b\"payment_id\":\"1234\",\"pay_amount\":\"3.5\"\x7d"

/-- A JSON reader that knows the body `amountAsStringBody`. -/
def sampleParseJSON (body : String) : Option (Json ℚ) :=
  if body = amountAsStringBody then
    some (.obj [("payment_id", .str "1234"), ("pay_amount", .str "3.5")])
  else none

/-- A reader of numbers that knows the text `3.5`. -/
def sampleParseFloat (s : String) : Option ℚ :=
  if s = "3.5" then some (7 / 2) else none

end core

/-! ## Package `config` -/

namespace config

theorem copyFields_at (heap : Ptr → Credentials) (q p : Ptr) :
    copyFields heap q p q = heap p := by
  by_cases h : p = q
  · subst h
    simp [copyFields]
  · simp [copyFields, Function.update, h]

theorem copyFields_source (heap : Ptr → Credentials) (q p : Ptr) :
    copyFields heap q p p = heap p := by
  by_cases h : p = q
  · subst h
    exact copyFields_at heap p p
  · simp [copyFields, Function.update, h]

/-- After `Load` of a non-nil pointer, `conf` points to an object equal to the
one behind the argument, which itself still holds what it held before. -/
theorem stored_Load (urlParse : String → Bool) (p : Ptr) (st : State) :
    stored (Load urlParse (some p) st).1 = some (st.heap p) ∧
      (Load urlParse (some p) st).1.heap p = st.heap p := by
  cases hq : st.conf with
  | none => simp [Load, stored, hq]
  | some q => simp [Load, stored, hq, copyFields_at, copyFields_source]

theorem Load_err (urlParse : String → Bool) (p : Ptr) (st : State) :
    (Load urlParse (some p) st).2 = sanityChecks urlParse (st.heap p) := by
  cases hq : st.conf with
  | none => simp [Load, hq]
  | some q => simp [Load, hq, copyFields_at]

theorem Holds_of_stored (st : State) (c : Credentials) (h : stored st = some c) : Holds st c := by
  simp [Holds, Login, Password, APIKey, IPNSecretKey, Server, h]

/-- C1, evaluated on the code: `Load` of `emptyLoginCfg` and of `emptyPasswordCfg`
(the credentials `TestLoad` expects an error for) returns nil whenever the server
URL parses, both as the first load and after `validCfg` was loaded; the only
error left is the one of `url.Parse`. -/
theorem Load_accepts_empty_login_and_password (urlParse : String → Bool) :
    (Load urlParse (some 1) testMemory).2 = serverVerdict urlParse "http://some.tld" ∧
      (Load urlParse (some 2) testMemory).2 = serverVerdict urlParse "http://some.tld" ∧
      (Load urlParse (some 1) (Load urlParse (some 0) testMemory).1).2 =
        serverVerdict urlParse "http://some.tld" ∧
      (Load urlParse (some 2) (Load urlParse (some 0) testMemory).1).2 =
        serverVerdict urlParse "http://some.tld" := by
  simp only [Load_err]
  cases h : urlParse "http://some.tld" <;>
    simp [Load, testMemory, sanityChecks, serverVerdict, configErr, erisWrap, emptyLoginCfg,
      emptyPasswordCfg, validCfg, h]

/-- C2: when the five fields of the credentials behind `p` are non-empty and the
server field parses as a URL, `Load` returns nil and the five getters then
return the fields of those credentials, whatever the state before the call. -/
theorem Load_valid (urlParse : String → Bool) (p : Ptr) (st : State)
    (hKey : (st.heap p).APIKey ≠ "") (hIPN : (st.heap p).IPNSecretKey ≠ "")
    (_hLogin : (st.heap p).Login ≠ "") (_hPassword : (st.heap p).Password ≠ "")
    (hServer : (st.heap p).Server ≠ "") (hURL : urlParse (st.heap p).Server = true) :
    (Load urlParse (some p) st).2 = none ∧
      Holds (Load urlParse (some p) st).1 (st.heap p) ∧
      (Load urlParse (some p) st).1.heap p = st.heap p := by
  refine ⟨?_, Holds_of_stored _ _ (stored_Load urlParse p st).1, (stored_Load urlParse p st).2⟩
  rw [Load_err]
  simp [sanityChecks, hKey, hIPN, hServer, hURL]

/-- Witness of C2: `validCfg` loaded after `emptyAPIKeyCfg` was rejected. -/
theorem Load_valid_witness :
    (Load (fun _ => true) (some 0) (Load (fun _ => true) (some 3) testMemory).1).2 = none ∧
      Holds (Load (fun _ => true) (some 0) (Load (fun _ => true) (some 3) testMemory).1).1
        validCfg ∧
      (Load (fun _ => true) (some 0) (Load (fun _ => true) (some 3) testMemory).1).1.heap 0 =
        validCfg :=
  Load_valid (fun _ => true) 0 (Load (fun _ => true) (some 3) testMemory).1
    (by decide) (by decide) (by decide) (by decide) (by decide) rfl

/-- C10: `Load` of a non-nil pointer leaves the stored configuration equal to
the credentials given, whether or not it returns an error; `Load(nil)` returns
an error and leaves the state as it was; and a rejected `Load` (empty API key)
after a valid one replaces the valid configuration. -/
theorem Load_not_atomic (urlParse : String → Bool) (p : Ptr) (st : State) :
    Holds (Load urlParse (some p) st).1 (st.heap p) ∧
      (Load urlParse none st).1 = st ∧ (Load urlParse none st).2 = some "config: nil reader" ∧
      (Load urlParse (some 3) (Load urlParse (some 0) testMemory).1).2 =
        some "config: API key is missing" ∧
      Holds (Load urlParse (some 3) (Load urlParse (some 0) testMemory).1).1 emptyAPIKeyCfg ∧
      Holds (Load urlParse (some 0) testMemory).1 validCfg := by
  refine ⟨Holds_of_stored _ _ (stored_Load urlParse p st).1, rfl, ?_, ?_, ?_, ?_⟩
  · simp [Load, configErr, erisWrap]
  · rw [Load_err]
    simp [Load, testMemory, sanityChecks, configErr, erisWrap, emptyAPIKeyCfg]
  · have h := (stored_Load urlParse 3 (Load urlParse (some 0) testMemory).1).1
    refine Holds_of_stored _ _ ?_
    rw [h]
    simp [Load, testMemory]
  · exact Holds_of_stored _ _ (stored_Load urlParse 0 testMemory).1

end config

/-! ## Package `recurring_payments` -/

namespace recurring_payments

open core

/-- C3: `New(nil)`, `Get("")` and `Delete("")` of the recurring payments, and
`New(nil)` and `NewFromInvoice(nil)` of the payments, return a nil result and an
error with a message, and call neither `core.Authenticate` nor
`core.HTTPSend`. -/
theorem nil_arguments_fail_fast {F A : Type} [Zero F] (cfg : config.State)
    (wNew : Handlers (List (Option RecurringPayment))) (wGet : Handlers (Option RecurringPayment))
    (wDelete : Handlers (Option String)) (ctx : Context F) (parseFloat : String → Option F)
    (encode : A → String) :
    New cfg wNew none = ([], .ret none (some "nil recurring payment args")) ∧
      Get wGet "" = ([], .ret none (some "empty recurring payment ID")) ∧
      Delete cfg wDelete "" = ([], .ret none (some "empty recurring payment ID")) ∧
      (∃ e, e ≠ "" ∧ payments.New ctx parseFloat encode none = ([], .ret none (some e))) ∧
      (∃ e, e ≠ "" ∧
        payments.NewFromInvoice ctx parseFloat encode none = ([], .ret none (some e))) := by
  refine ⟨rfl, rfl, rfl, ⟨"nil payment args", by decide, rfl⟩, ⟨"nil payment args", by decide, rfl⟩⟩

/-- C4, evaluated on the code: with the configuration loaded, a token obtained
and a dispatch that succeeds with an empty result list, `New` panics on
`rcu.Result[0]`, for every argument. -/
theorem New_empty_list_panics (ru : RecurringPaymentArgs) (tok : String) :
    (New loadedConfig
      { Authenticate := fun _ _ => .ok tok, HTTPSend := fun _ => .ok (some { Result := [] }) }
      (some ru)).2 = .panic := by
  rfl

/-- C8: when the token is obtained and the dispatch succeeds with a non-empty
result list, `New` returns the head of the list and a nil error, whatever
follows the head. -/
theorem New_returns_first (cfg : config.State) (w : Handlers (List (Option RecurringPayment)))
    (ru : RecurringPaymentArgs) (login password d tok : String)
    (first : Option RecurringPayment) (others : List (Option RecurringPayment))
    (hLogin : config.Login cfg = some login) (hPassword : config.Password cfg = some password)
    (hBody : jsonMarshal ru = .ok d) (hAuth : w.Authenticate login password = .ok tok)
    (hSend : w.HTTPSend
      { RouteName := "recurring-payment-create", Path := "", JWTToken := tok, Body := some d } =
        .ok (some { Result := first :: others })) :
    (New cfg w (some ru)).2 = .ret first none := by
  simp only [New, hBody, hLogin, hPassword, hAuth, hSend]

/-- Witness of C8: a list of two records, the second of them nil. -/
theorem New_returns_first_witness :
    (New loadedConfig
      { Authenticate := fun _ _ => .ok "jwt",
        HTTPSend := fun _ => .ok (some { Result := [some samplePayment, none] }) }
      (some { SubscriptionPlanID := 76215585, SubPartnerID := 111394 })).2 =
      .ret (some samplePayment) none :=
  New_returns_first loadedConfig _ _ "mylogin" "mypass"
    "\x7b\"subscription_plan_id\":76215585,\"sub_partner_id\":111394\x7d" "jwt"
    (some samplePayment) [none] (by decide) (by decide) rfl rfl rfl

/-- C9: the calls of the three operations. With the configuration loaded, `New`
calls `Authenticate` with the configured login and password and then, if a token
came back, `HTTPSend` once on route `recurring-payment-create` with no path
suffix, the JSON encoding of the arguments as body and that token; `Delete` does
the same on route `recurring-payment-delete` with the ID as path suffix and no
body; `Get` calls `HTTPSend` alone, on route `recurring-payment-single` with the
ID as path suffix, no body and no token. -/
theorem calls_of_operations (cfg : config.State) (wNew : Handlers (List (Option RecurringPayment)))
    (wGet : Handlers (Option RecurringPayment)) (wDelete : Handlers (Option String))
    (ru : RecurringPaymentArgs) (id login password d : String)
    (hLogin : config.Login cfg = some login) (hPassword : config.Password cfg = some password)
    (hBody : jsonMarshal ru = .ok d) (hID : id ≠ "") :
    (New cfg wNew (some ru)).1 =
        (match wNew.Authenticate login password with
        | .ok tok =>
          [.Authenticate login password,
            .HTTPSend
              { RouteName := "recurring-payment-create", Path := "", JWTToken := tok,
                Body := some d }]
        | .error _ => [.Authenticate login password]) ∧
      (Delete cfg wDelete id).1 =
        (match wDelete.Authenticate login password with
        | .ok tok =>
          [.Authenticate login password,
            .HTTPSend
              { RouteName := "recurring-payment-delete", Path := id, JWTToken := tok,
                Body := none }]
        | .error _ => [.Authenticate login password]) ∧
      (Get wGet id).1 =
        [.HTTPSend
          { RouteName := "recurring-payment-single", Path := id, JWTToken := "", Body := none }] := by
  refine ⟨?_, ?_, ?_⟩
  · simp only [New, hBody, hLogin, hPassword]
    cases hA : wNew.Authenticate login password with
    | error e => rfl
    | ok tok =>
      simp only []
      cases hS : wNew.HTTPSend
          { RouteName := "recurring-payment-create", Path := "", JWTToken := tok,
            Body := some d } with
      | error e => rfl
      | ok dest =>
        cases dest with
        | none => rfl
        | some rcu =>
          cases hR : rcu.Result <;> simp [hR]
  · simp only [Delete, if_neg hID, hLogin, hPassword]
    cases hA : wDelete.Authenticate login password with
    | error e => rfl
    | ok tok =>
      simp only []
      cases hS : wDelete.HTTPSend
          { RouteName := "recurring-payment-delete", Path := id, JWTToken := tok,
            Body := none } with
      | error e => rfl
      | ok dest => cases dest <;> rfl
  · simp only [Get, if_neg hID]
    cases hS : wGet.HTTPSend
        { RouteName := "recurring-payment-single", Path := id, JWTToken := "", Body := none } with
    | error e => rfl
    | ok dest => cases dest <;> rfl

/-- Witness of C9: the calls with `validCfg` loaded, a token `jwt` and the ID 42. -/
theorem calls_of_operations_witness :
    (New loadedConfig (timeoutHandlers _) (some { SubscriptionPlanID := 7, SubPartnerID := -1 })).1 =
        [.Authenticate "mylogin" "mypass",
          .HTTPSend
            { RouteName := "recurring-payment-create", Path := "", JWTToken := "jwt",
              Body := some "\x7b\"subscription_plan_id\":7,\"sub_partner_id\":-1\x7d" }] ∧
      (Delete loadedConfig (deniedHandlers _) "42").1 = [.Authenticate "mylogin" "mypass"] ∧
      (Get (timeoutHandlers _) "42").1 =
        [.HTTPSend
          { RouteName := "recurring-payment-single", Path := "42", JWTToken := "", Body := none }] :=
  calls_of_operations loadedConfig (timeoutHandlers _) (timeoutHandlers _) (deniedHandlers _)
    { SubscriptionPlanID := 7, SubPartnerID := -1 } "42" "mylogin" "mypass"
    "\x7b\"subscription_plan_id\":7,\"sub_partner_id\":-1\x7d" (by decide) (by decide) rfl
    (by decide)

/-- Counterexample to C6: a dispatch that succeeds and leaves `Result` nil (a
response without a result) makes `Get` return a nil result with a nil error. -/
theorem Get_nil_result_nil_error :
    (Get (nilResultHandlers _) "42").2 = .ret none none ∧
      ¬ (Get (nilResultHandlers _) "42").2.AllOrNothing := by
  refine ⟨rfl, ?_⟩
  rintro (⟨r, h⟩ | ⟨e, h⟩) <;> cases h

/-- C6 as amended: none of `New`, `Get`, `Delete` returns a non-nil result
together with a non-nil error. When the dispatch is reached (a non-empty ID, or
non-nil arguments; for `New` and `Delete` the configuration loaded and a token
handed out) and reports success leaving the envelope pointer non-nil, `Get` and
`Delete` return its `Result` as it is, and `New` the head of a non-empty list as
it is, with a nil error, also when that pointer is nil. -/
theorem no_result_with_error (cfg : config.State)
    (wNew : Handlers (List (Option RecurringPayment))) (wGet : Handlers (Option RecurringPayment))
    (wDelete : Handlers (Option String)) (ru : Option RecurringPaymentArgs) (id : String) :
    (∀ r e, (New cfg wNew ru).2 ≠ .ret (some r) (some e)) ∧
      (∀ r e, (Get wGet id).2 ≠ .ret (some r) (some e)) ∧
      (∀ r e, (Delete cfg wDelete id).2 ≠ .ret (some r) (some e)) ∧
      (∀ rp, id ≠ "" →
        wGet.HTTPSend
          { RouteName := "recurring-payment-single", Path := id, JWTToken := "", Body := none } =
          .ok (some rp) →
        (Get wGet id).2 = .ret rp.Result none) ∧
      (∀ login password tok de, id ≠ "" → config.Login cfg = some login →
        config.Password cfg = some password → wDelete.Authenticate login password = .ok tok →
        wDelete.HTTPSend
          { RouteName := "recurring-payment-delete", Path := id, JWTToken := tok, Body := none } =
          .ok (some de) →
        (Delete cfg wDelete id).2 = .ret de.Result none) ∧
      (∀ args login password d tok first others, ru = some args →
        config.Login cfg = some login → config.Password cfg = some password →
        jsonMarshal args = .ok d → wNew.Authenticate login password = .ok tok →
        wNew.HTTPSend
          { RouteName := "recurring-payment-create", Path := "", JWTToken := tok,
            Body := some d } = .ok (some { Result := first :: others }) →
        (New cfg wNew ru).2 = .ret first none) := by
  refine ⟨?_, ?_, ?_, ?_, ?_, ?_⟩
  · intro r e
    unfold New
    repeat' (first | split | dsimp only)
    all_goals simp
  · intro r e
    unfold Get
    repeat' (first | split | dsimp only)
    all_goals simp
  · intro r e
    unfold Delete
    repeat' (first | split | dsimp only)
    all_goals simp
  · intro rp hID hSend
    simp only [Get, if_neg hID, hSend]
  · intro login password tok de hID hLogin hPassword hAuth hSend
    simp only [Delete, if_neg hID, hLogin, hPassword, hAuth, hSend]
  · intro args login password d tok first others hArgs hLogin hPassword hBody hAuth hSend
    subst hArgs
    simp only [New, hBody, hLogin, hPassword, hAuth, hSend]

/-- Witness of C6 as amended: `Delete` after a dispatch that succeeded without a
result returns a nil result and a nil error. -/
theorem no_result_with_error_witness :
    (Delete loadedConfig (nilResultHandlers _) "42").2 = .ret none none :=
  (no_result_with_error loadedConfig (timeoutHandlers _) (nilResultHandlers _)
    (nilResultHandlers _) none "42").2.2.2.2.1 "mylogin" "mypass" "jwt" { Result := none }
    (by decide) (by decide) (by decide) rfl rfl

end recurring_payments

/-! ## Errors of the transport -/

namespace core

theorem beginsWith_append (start rest : String) : BeginsWith (start ++ rest) start := by
  simp [BeginsWith, String.data_append]

theorem contains_append (start part : String) : Contains (start ++ part) part := by
  simp only [Contains, String.data_append]
  exact ⟨start.data, [], by simp⟩

theorem taggedWith_erisWrap (route cause : String) :
    TaggedWith route cause (some (erisWrap cause route)) :=
  ⟨_, rfl, beginsWith_append _ _, contains_append _ _⟩

/-- When the transport fails the request built for `p`, the dispatcher returns
the cause under the route name. -/
theorem HTTPSend_dispatch_fails {F D : Type} (ctx : Context F)
    (decode : Json F → Except String D) (p : SendParams) (m : String)
    (hFail : ctx.DispatchFails p m) :
    HTTPSend ctx decode p = .error (p.RouteName ++ ": " ++ m) := by
  obtain ⟨client, route, hClient, hRoute, hReq⟩ := hFail
  simp only [HTTPSend, hClient, hRoute, hReq, erisWrap]

/-- A message that starts with `recurring payment: ` starts with neither
`recurring-payment-create: ` nor `recurring-payment-delete: `. -/
theorem recurring_payment_not_route (e : String) :
    ¬ BeginsWith ("recurring payment: " ++ e) "recurring-payment-create: " ∧
      ¬ BeginsWith ("recurring payment: " ++ e) "recurring-payment-delete: " := by
  constructor <;>
  · rintro ⟨t, ht⟩
    have h9 := congrArg (fun l => l.get? 9) ht
    simp [String.data_append] at h9

end core

namespace recurring_payments

open core

/-- Counterexample to C5: when the authentication exchange of `New` fails with
`network error`, the error returned reads `recurring payment: network error`; it
does not begin with `recurring-payment-create: `. -/
theorem New_auth_failure_not_route_tagged :
    (New loadedConfig (offlineHandlers _)
        (some { SubscriptionPlanID := 7, SubPartnerID := 1 })).2 =
        .ret none (some "recurring payment: network error") ∧
      ¬ TaggedWith "recurring-payment-create" "network error"
        (New loadedConfig (offlineHandlers _)
          (some { SubscriptionPlanID := 7, SubPartnerID := 1 })).2.err := by
  refine ⟨rfl, ?_⟩
  rintro ⟨msg, hMsg, hBegin, -⟩
  have hEq : msg = "recurring payment: network error" := (Option.some.inj hMsg).symm
  subst hEq
  revert hBegin
  unfold BeginsWith
  decide

/-- C5 as amended: when the transport fails the request of the dispatch with
cause `m`, `Get`, `payments.New` and `payments.NewFromInvoice` return a nil
result and the error `<route>: m` under their own route name, a message that
begins with the route name, a colon and a blank and contains `m`; so do `New` and
`Delete` of the recurring payments, for which `core.Authenticate` has then
handed out a token. When `core.Authenticate` fails with message `e`, `New` and
`Delete` call nothing else and return a nil result with the error
`recurring payment: e`, whatever `core.HTTPSend` would do; that message begins
with neither route name. -/
theorem transport_failure_message {F A B : Type} [Zero F] (ctx : Context F) (m : String)
    (cfg : config.State) (login password : String)
    (authenticate : String → String → Except String String)
    (decodeNew : Json F →
      Except String (Option (V2ResponseFormat (List (Option RecurringPayment)))))
    (decodeGet : Json F → Except String (Option (V2ResponseFormat (Option RecurringPayment))))
    (decodeDelete : Json F → Except String (Option (V2ResponseFormat (Option String))))
    (parseFloat : String → Option F) (encode : A → String) (encodeInvoice : B → String)
    (ru : RecurringPaymentArgs) (id d : String) (pa : A) (ipa : B)
    (hLogin : config.Login cfg = some login) (hPassword : config.Password cfg = some password)
    (hBody : jsonMarshal ru = .ok d) (hID : id ≠ "") :
    (∀ route, TaggedWith route m (some (route ++ ": " ++ m))) ∧
      (ctx.DispatchFails
          { RouteName := "recurring-payment-single", Path := id, JWTToken := "", Body := none }
          m →
        (Get { Authenticate := authenticate, HTTPSend := HTTPSend ctx decodeGet } id).2 =
          .ret none (some ("recurring-payment-single: " ++ m))) ∧
      (ctx.DispatchFails
          { RouteName := "payment-create", Path := "", JWTToken := "", Body := some (encode pa) }
          m →
        (payments.New ctx parseFloat encode (some pa)).2 =
          .ret none (some ("payment-create: " ++ m))) ∧
      (ctx.DispatchFails
          { RouteName := "invoice-payment", Path := "", JWTToken := "",
            Body := some (encodeInvoice ipa) }
          m →
        (payments.NewFromInvoice ctx parseFloat encodeInvoice (some ipa)).2 =
          .ret none (some ("invoice-payment: " ++ m))) ∧
      (∀ tok, authenticate login password = .ok tok →
        ctx.DispatchFails
          { RouteName := "recurring-payment-create", Path := "", JWTToken := tok, Body := some d }
          m →
        (New cfg { Authenticate := authenticate, HTTPSend := HTTPSend ctx decodeNew }
          (some ru)).2 = .ret none (some ("recurring-payment-create: " ++ m))) ∧
      (∀ tok, authenticate login password = .ok tok →
        ctx.DispatchFails
          { RouteName := "recurring-payment-delete", Path := id, JWTToken := tok, Body := none }
          m →
        (Delete cfg { Authenticate := authenticate, HTTPSend := HTTPSend ctx decodeDelete }
          id).2 = .ret none (some ("recurring-payment-delete: " ++ m))) ∧
      (∀ e send, authenticate login password = .error e →
        New cfg { Authenticate := authenticate, HTTPSend := send } (some ru) =
          ([.Authenticate login password], .ret none (some ("recurring payment: " ++ e)))) ∧
      (∀ e send, authenticate login password = .error e →
        Delete cfg { Authenticate := authenticate, HTTPSend := send } id =
          ([.Authenticate login password], .ret none (some ("recurring payment: " ++ e)))) ∧
      (∀ e, ¬ BeginsWith ("recurring payment: " ++ e) "recurring-payment-create: " ∧
        ¬ BeginsWith ("recurring payment: " ++ e) "recurring-payment-delete: ") := by
  refine ⟨fun route => taggedWith_erisWrap route m, ?_, ?_, ?_, ?_, ?_, ?_, ?_,
    recurring_payment_not_route⟩
  · intro hFail
    simp only [Get, if_neg hID]
    rw [HTTPSend_dispatch_fails ctx decodeGet _ m hFail]
    rfl
  · intro hFail
    simp only [payments.New]
    rw [HTTPSend_dispatch_fails ctx _ _ m hFail]
    rfl
  · intro hFail
    simp only [payments.NewFromInvoice]
    rw [HTTPSend_dispatch_fails ctx _ _ m hFail]
    rfl
  · intro tok hAuth hFail
    simp only [New, hBody, hLogin, hPassword, hAuth]
    rw [HTTPSend_dispatch_fails ctx decodeNew _ m hFail]
    rfl
  · intro tok hAuth hFail
    simp only [Delete, if_neg hID, hLogin, hPassword, hAuth]
    rw [HTTPSend_dispatch_fails ctx decodeDelete _ m hFail]
    rfl
  · intro e send hAuth
    simp only [New, hBody, hLogin, hPassword, hAuth, erisWrap]
    rfl
  · intro e send hAuth
    simp only [Delete, if_neg hID, hLogin, hPassword, hAuth, erisWrap]
    rfl

/-- Witness of C5 as amended: over a transport that answers the token exchange
and loses every other request, `New` with the token `jwt` returns the transport
error under its route name; with the credentials refused, `Delete` calls
`core.Authenticate` alone and wraps its error. -/
theorem transport_failure_message_witness :
    (New loadedConfig
        { Authenticate := fun _ _ => .ok "jwt",
          HTTPSend := HTTPSend (sampleContext selectiveTransport (fun _ => none))
            (fun _ => .error "unused") }
        (some { SubscriptionPlanID := 7, SubPartnerID := 1 })).2 =
        .ret none (some "recurring-payment-create: network error") ∧
      Delete loadedConfig
        { Authenticate := fun _ _ => .error "denied",
          HTTPSend := HTTPSend (sampleContext selectiveTransport (fun _ => none))
            (fun _ => .error "unused") } "42" =
        ([.Authenticate "mylogin" "mypass"], .ret none (some "recurring payment: denied")) :=
  ⟨(transport_failure_message (sampleContext selectiveTransport (fun _ => none))
      "network error" loadedConfig "mylogin" "mypass" (fun _ _ => .ok "jwt")
      (fun _ => .error "unused") (fun _ => .error "unused") (fun _ => .error "unused")
      sampleParseFloat (fun a : String => a) (fun a : String => a)
      { SubscriptionPlanID := 7, SubPartnerID := 1 } "42"
      "\x7b\"subscription_plan_id\":7,\"sub_partner_id\":1\x7d" "null" "null"
      (by decide) (by decide) rfl (by decide)).2.2.2.2.1 "jwt" rfl
      ⟨{ transport := selectiveTransport, baseURL := "https://api.nowpayments.io",
          debugEnabled := false },
        { name := "recurring-payment-create", method := "POST",
          pathTemplate := "/v1/subscriptions" }, rfl, rfl, rfl⟩,
    (transport_failure_message (sampleContext selectiveTransport (fun _ => none))
      "network error" loadedConfig "mylogin" "mypass" (fun _ _ => .error "denied")
      (fun _ => .error "unused") (fun _ => .error "unused") (fun _ => .error "unused")
      sampleParseFloat (fun a : String => a) (fun a : String => a)
      { SubscriptionPlanID := 7, SubPartnerID := 1 } "42"
      "\x7b\"subscription_plan_id\":7,\"sub_partner_id\":1\x7d" "null" "null"
      (by decide) (by decide) rfl (by decide)).2.2.2.2.2.2.2.1 "denied" _ rfl⟩

end recurring_payments

/-! ## Package `payments` -/

namespace payments

open core

/-- C7: with the dispatcher set up, the route `payment-create` in the table and
a transport answering 200 with the body `{"payment_id": id}` followed or not by a
member `pay_amount`, `New` returns the payment with that ID and no error, the
amount being the number itself for a JSON number, the number read out of a JSON
string holding one, and zero when the member is absent; it returns an error for
a string holding no number, a boolean, an array and an object. -/
theorem New_pay_amount {F A : Type} [Zero F] (ctx : Context F) (parseFloat : String → Option F)
    (encode : A → String) (pa : A) (client : Client) (route : Route) (resp : Response)
    (id : String) (amount : List (String × Json F))
    (hClient : ctx.client = some client)
    (hRoute : resolve ctx.routes "payment-create" = some route)
    (hSend : ∀ req, client.transport req = .ok resp) (hStatus : resp.StatusCode = 200)
    (hBody : ctx.parseJSON resp.Body = some (.obj (("payment_id", .str id) :: amount))) :
    (amount = [] →
        (New ctx parseFloat encode (some pa)).2 = .ret (some { ID := id, PayAmount := 0 }) none) ∧
      (∀ x, amount = [("pay_amount", .num x)] →
        (New ctx parseFloat encode (some pa)).2 = .ret (some { ID := id, PayAmount := x }) none) ∧
      (∀ s x, amount = [("pay_amount", .str s)] → parseFloat s = some x →
        (New ctx parseFloat encode (some pa)).2 = .ret (some { ID := id, PayAmount := x }) none) ∧
      (∀ s, amount = [("pay_amount", .str s)] → parseFloat s = none →
        ∃ e, (New ctx parseFloat encode (some pa)).2 = .ret none (some e)) ∧
      (∀ b, amount = [("pay_amount", .bool b)] →
        ∃ e, (New ctx parseFloat encode (some pa)).2 = .ret none (some e)) ∧
      (∀ items, amount = [("pay_amount", .arr items)] →
        ∃ e, (New ctx parseFloat encode (some pa)).2 = .ret none (some e)) ∧
      (∀ members, amount = [("pay_amount", .obj members)] →
        ∃ e, (New ctx parseFloat encode (some pa)).2 = .ret none (some e)) := by
  refine ⟨?_, ?_, ?_, ?_, ?_, ?_, ?_⟩
  · intro h
    subst h
    simp [New, HTTPSend, hClient, hRoute, hSend, hStatus, hBody, decodeEnvelope, decodePayment,
      FlexibleAmount.decode, List.lookup]
  · intro x h
    subst h
    simp [New, HTTPSend, hClient, hRoute, hSend, hStatus, hBody, decodeEnvelope, decodePayment,
      FlexibleAmount.decode, List.lookup]
  · intro s x h hx
    subst h
    simp [New, HTTPSend, hClient, hRoute, hSend, hStatus, hBody, decodeEnvelope, decodePayment,
      FlexibleAmount.decode, List.lookup, hx]
  · intro s h hs
    subst h
    simp [New, HTTPSend, hClient, hRoute, hSend, hStatus, hBody, decodeEnvelope, decodePayment,
      FlexibleAmount.decode, List.lookup, hs]
  · intro b h
    subst h
    simp [New, HTTPSend, hClient, hRoute, hSend, hStatus, hBody, decodeEnvelope, decodePayment,
      FlexibleAmount.decode, List.lookup]
  · intro items h
    subst h
    simp [New, HTTPSend, hClient, hRoute, hSend, hStatus, hBody, decodeEnvelope, decodePayment,
      FlexibleAmount.decode, List.lookup]
  · intro members h
    subst h
    simp [New, HTTPSend, hClient, hRoute, hSend, hStatus, hBody, decodeEnvelope, decodePayment,
      FlexibleAmount.decode, List.lookup]

/-- Witness of C7: the body `{"payment_id":"1234","pay_amount":"3.5"}` answered
with status 200 gives the payment 1234 with the amount 7/2. -/
theorem New_pay_amount_witness :
    (New (sampleContext
        (okTransport amountAsStringBody)
        sampleParseJSON)
      sampleParseFloat (fun a : String => a) (some "null")).2 =
      .ret (some { ID := "1234", PayAmount := 7 / 2 }) none :=
  (New_pay_amount
    (sampleContext
      (okTransport amountAsStringBody)
      sampleParseJSON)
    sampleParseFloat (fun a : String => a) "null"
    { transport := okTransport amountAsStringBody,
      baseURL := "https://api.nowpayments.io", debugEnabled := false }
    { name := "payment-create", method := "POST", pathTemplate := "/v1/payment" }
    { StatusCode := 200, Body := amountAsStringBody } "1234"
    [("pay_amount", .str "3.5")] rfl rfl (fun _ => rfl) rfl rfl).2.2.1 "3.5" (7 / 2) rfl rfl

end payments
